import Mathlib

/-!
Shallow embedding of the pagination-aware HTTP request core of the
`zscaler_api_talkers` library (three talkers: ClientConnector, ZPA, ZIA
portal), together with theorems settling the specification claims.

The HTTP transport is modelled as a function supplied by the environment:
for the sentinel paginator it maps a page number to the decoded JSON body
of that page (a list of records) or a transport error; for the ZPA
paginator it maps the full request URL to a decoded response.  Records are
opaque (a type parameter).  The unbounded `while True` loop of the
sentinel paginator is embedded with explicit fuel: `none` means the fuel
ran out before the loop terminated.
-/

universe u v

/-- Transport------------------------------------------------------------
A fetch of one page in the sentinel dialect: page number to JSON body
(a list of opaque records), or a raised transport error
(`error_handling=True` raises on non-2xx). -/
def SentinelFetch (ε : Type u) (α : Type v) : Type (max u v) :=
  Nat → Except ε (List α)

namespace ClientConnector

/-- Loop body of `ClientConnectorTalker._obtain_all` (talker.py:83-100):
`page` starts at 1, each iteration issues one GET for `{url}&page={page}`;
a non-empty JSON body is appended to the accumulator and the page counter
incremented; an empty body breaks the loop.  `n` counts fetches performed
so far; the returned `Nat` is the total number of fetches.  `fuel` bounds
the unbounded Python loop; `none` = fuel exhausted before termination. -/
def obtainAllGo {ε : Type u} {α : Type v} (fetch : SentinelFetch ε α) :
    Nat → Nat → List α → Nat → Option (Except ε (List α) × Nat)
  | 0, _, _, _ => none
  | fuel + 1, page, acc, n =>
    match fetch page with
    | .error e => some (.error e, n + 1)
    | .ok body =>
      if body.isEmpty then
        some (.ok acc, n + 1)
      else
        obtainAllGo fetch fuel (page + 1) (acc ++ body) (n + 1)

/-- `ClientConnectorTalker._obtain_all`: start at page 1 with an empty
accumulator and zero fetches performed. -/
def obtain_all {ε : Type u} {α : Type v} (fetch : SentinelFetch ε α) (fuel : Nat) :
    Option (Except ε (List α) × Nat) :=
  obtainAllGo fetch fuel 1 [] 0

end ClientConnector

/-- If pages `page .. page+d-1` are non-empty and page `page+d` is the
first empty one, the sentinel loop returns the accumulator extended by the
concatenation of those pages and performs `d+1` further fetches. -/
theorem ClientConnector.obtainAllGo_ok {ε : Type u} {α : Type v}
    (fetch : SentinelFetch ε α) (pages : Nat → List α) :
    ∀ (d fuel page : Nat) (acc : List α) (n : Nat),
      (∀ k, page ≤ k → k ≤ page + d → fetch k = .ok (pages k)) →
      pages (page + d) = [] →
      (∀ k, page ≤ k → k < page + d → pages k ≠ []) →
      d + 1 ≤ fuel →
      obtainAllGo fetch fuel page acc n =
        some (.ok (acc ++ (List.range' page d).flatMap pages), n + d + 1) := by
  intro d
  induction d with
  | zero =>
    intro fuel page acc n hfetch hempty _ hfuel
    match fuel, hfuel with
    | fuel + 1, _ =>
      have h1 : fetch page = .ok (pages page) := hfetch page (Nat.le_refl _) (Nat.le_add_right _ _)
      have h2 : pages page = [] := by simpa using hempty
      simp [obtainAllGo, h1, h2]
  | succ d ih =>
    intro fuel page acc n hfetch hempty hne hfuel
    match fuel, hfuel with
    | fuel + 1, hfuel =>
      have h1 : fetch page = .ok (pages page) :=
        hfetch page (Nat.le_refl _) (Nat.le_add_right _ _)
      have h2 : pages page ≠ [] :=
        hne page (Nat.le_refl _) (Nat.lt_add_of_pos_right (Nat.succ_pos d))
      have hrec := ih fuel (page + 1) (acc ++ pages page) (n + 1)
        (fun k hk1 hk2 => hfetch k (Nat.le_of_succ_le hk1) (by omega))
        (by have : page + 1 + d = page + (d + 1) := by omega
            rw [this]; exact hempty)
        (fun k hk1 hk2 => hne k (Nat.le_of_succ_le hk1) (by omega))
        (Nat.le_of_succ_le_succ hfuel)
      simp only [obtainAllGo, h1]
      rw [if_neg (by simpa [List.isEmpty_iff] using h2)]
      rw [hrec, List.range'_succ, List.flatMap_cons]
      have hn : n + 1 + d + 1 = n + (d + 1) + 1 := by omega
      rw [List.append_assoc, hn]

/-- C1: for every backend page sequence whose first empty page is page `N`
(pages `1..N-1` non-empty, all fetched without transport error), the
sentinel paginator `_obtain_all` returns exactly the concatenation of
pages `1..N-1` in page order and performs exactly `N` fetches (given
enough fuel for the Python `while True` loop). -/
theorem sentinel_paginator_returns_concat {ε : Type u} {α : Type v}
    (fetch : SentinelFetch ε α) (pages : Nat → List α) (N fuel : Nat)
    (hN : 1 ≤ N)
    (hfetch : ∀ k, 1 ≤ k → k ≤ N → fetch k = .ok (pages k))
    (hempty : pages N = [])
    (hne : ∀ k, 1 ≤ k → k < N → pages k ≠ [])
    (hfuel : N ≤ fuel) :
    ClientConnector.obtain_all fetch fuel =
      some (.ok ((List.range' 1 (N - 1)).flatMap pages), N) := by
  have key := ClientConnector.obtainAllGo_ok fetch pages (N - 1) fuel 1 [] 0
    (fun k hk1 hk2 => hfetch k hk1 (by omega))
    (by have : 1 + (N - 1) = N := by omega
        rw [this]; exact hempty)
    (fun k hk1 hk2 => hne k hk1 (by omega))
    (by omega)
  rw [ClientConnector.obtain_all, key]
  congr 2
  omega

/-- Concrete page sequence for the sentinel-dialect examples:
page 1 = [10, 20], page 2 = [30], page 3 and beyond empty. -/
def exPages : Nat → List Nat
  | 1 => [10, 20]
  | 2 => [30]
  | _ => []

/-- An error-free transport serving `exPages`. -/
def exFetch : SentinelFetch String Nat := fun k => .ok (exPages k)

/-- Witness for C1: with pages [10,20], [30], [] the paginator returns
[10,20,30] after exactly 3 fetches. -/
theorem sentinel_paginator_returns_concat_witness :
    ClientConnector.obtain_all exFetch 5 = some (.ok [10, 20, 30], 3) :=
  sentinel_paginator_returns_concat exFetch exPages 3 5 (by decide)
    (fun _ _ _ => rfl) rfl
    (by intro k h1 h2; interval_cases k <;> decide) (by decide)

/-- Python's `needle in haystack` on strings, character-list form:
does `needle` start `haystack`? -/
def listStartsWith : List Char → List Char → Bool
  | [], _ => true
  | _ :: _, [] => false
  | c :: cs, d :: ds => c == d && listStartsWith cs ds

/-- Python's `needle in haystack`: does `needle` occur as a contiguous
substring of `haystack`? -/
def listContainsSub (needle : List Char) : List Char → Bool
  | [] => listStartsWith needle []
  | c :: cs => listStartsWith needle (c :: cs) || listContainsSub needle cs

/-- Python's `in` operator on strings. -/
def strIn (needle haystack : String) : Bool :=
  listContainsSub needle.data haystack.data

namespace Zpa

/-- Decoded JSON body of one ZPA response: the optional `"list"` field and
the reported `"totalPages"` value (`int(...)` of what the backend sent). -/
structure Response (α : Type v) where
  list : Option (List α)
  totalPages : Nat

/-- Errors escaping `_obtain_all_results`: a raised transport error, or
the `KeyError` from `.json()["list"]` on a loop page without a `"list"`
field. -/
inductive PagErr (ε : Type u) where
  | transport : ε → PagErr ε
  | keyError : PagErr ε

/-- ZPA-dialect transport: request URL to decoded response or raised
transport error. -/
def ZpaFetch (ε : Type u) (α : Type v) : Type (max u v) :=
  String → Except ε (Response α)

/-- The URL fetched for loop index `i`: `f"{url}&page={i}"`. -/
def pageUrl (url : String) (i : Nat) : String :=
  url ++ "&page=" ++ toString i

/-- `zpa_talker.py:54-55`: append `?pagesize=500` unless the substring
`?pagesize` already occurs in the URL. -/
def adjustUrl (url : String) : String :=
  if strIn "?pagesize" url then url else url ++ "?pagesize=500"

/-- The `while i <= int(response.json()["totalPages"])` loop of
`_obtain_all_results` (zpa_talker.py:64-74).  `count` is the number of
remaining iterations (known upfront: `totalPages + 1`, for
`i = 0 .. totalPages`); `urls` records every URL fetched so far. -/
def loopGo {ε : Type u} {α : Type v} (fetch : ZpaFetch ε α) (url : String) :
    Nat → Nat → List α → List String → Except (PagErr ε) (List α) × List String
  | 0, _, acc, urls => (.ok acc, urls)
  | count + 1, i, acc, urls =>
    match fetch (pageUrl url i) with
    | .error e => (.error (.transport e), urls ++ [pageUrl url i])
    | .ok resp =>
      match resp.list with
      | none => (.error .keyError, urls ++ [pageUrl url i])
      | some lst => loopGo fetch url count (i + 1) (acc ++ lst) (urls ++ [pageUrl url i])

/-- `ZpaTalker._obtain_all_results` (zpa_talker.py:42-78): adjust the URL,
fetch once; with no `"list"` key return `[]`; with `totalPages > 1` loop
`i` from `0` through `totalPages` inclusive concatenating each page's
`"list"` field (the first response's own list is discarded); otherwise
return the first response's `"list"` field.  The second component records
every URL fetched, in order. -/
def obtain_all_results {ε : Type u} {α : Type v} (fetch : ZpaFetch ε α)
    (url : String) : Except (PagErr ε) (List α) × List String :=
  let u := adjustUrl url
  match fetch u with
  | .error e => (.error (.transport e), [u])
  | .ok resp =>
    match resp.list with
    | none => (.ok [], [u])
    | some lst =>
      if resp.totalPages > 1 then
        loopGo fetch u (resp.totalPages + 1) 0 [] [u]
      else
        (.ok lst, [u])

end Zpa

/-- If every loop index `i .. i+count-1` fetches ok with a `"list"` field,
the ZPA loop appends the concatenation of those list fields and records
the page URLs in index order. -/
theorem Zpa.loopGo_ok {ε : Type u} {α : Type v} (fetch : Zpa.ZpaFetch ε α)
    (url : String) (resps : Nat → Zpa.Response α) (pages : Nat → List α) :
    ∀ (count i : Nat) (acc : List α) (urls : List String),
      (∀ j, i ≤ j → j < i + count → fetch (Zpa.pageUrl url j) = .ok (resps j)) →
      (∀ j, i ≤ j → j < i + count → (resps j).list = some (pages j)) →
      Zpa.loopGo fetch url count i acc urls =
        (.ok (acc ++ (List.range' i count).flatMap pages),
          urls ++ (List.range' i count).map (Zpa.pageUrl url)) := by
  intro count
  induction count with
  | zero => intro i acc urls _ _; simp [Zpa.loopGo]
  | succ count ih =>
    intro i acc urls hres hlist
    have h1 : fetch (Zpa.pageUrl url i) = .ok (resps i) :=
      hres i (Nat.le_refl _) (by omega)
    have h2 : (resps i).list = some (pages i) :=
      hlist i (Nat.le_refl _) (by omega)
    have hrec := ih (i + 1) (acc ++ pages i) (urls ++ [Zpa.pageUrl url i])
      (fun j hj1 hj2 => hres j (Nat.le_of_succ_le hj1) (by omega))
      (fun j hj1 hj2 => hlist j (Nat.le_of_succ_le hj1) (by omega))
    simp only [Zpa.loopGo, h1, h2]
    rw [hrec, List.range'_succ, List.flatMap_cons, List.map_cons]
    rw [List.append_assoc]
    congr 1
    simp

/-- C2: when the first response carries a `"list"` key and reports
`totalPages > 1`, `_obtain_all_results` subsequently fetches page indices
`0` through `totalPages` inclusive and returns the concatenation of the
`"list"` fields of those page responses in index order (the recorded URL
trace is the adjusted URL followed by the page URLs for indices
`0..totalPages`). -/
theorem zpa_total_pages_paginator {ε : Type u} {α : Type v}
    (fetch : Zpa.ZpaFetch ε α) (url : String) (resp0 : Zpa.Response α)
    (l0 : List α) (resps : Nat → Zpa.Response α) (pages : Nat → List α)
    (h0 : fetch (Zpa.adjustUrl url) = .ok resp0)
    (hl0 : resp0.list = some l0)
    (htp : 1 < resp0.totalPages)
    (hres : ∀ j, j ≤ resp0.totalPages →
      fetch (Zpa.pageUrl (Zpa.adjustUrl url) j) = .ok (resps j))
    (hlist : ∀ j, j ≤ resp0.totalPages → (resps j).list = some (pages j)) :
    Zpa.obtain_all_results fetch url =
      (.ok ((List.range (resp0.totalPages + 1)).flatMap pages),
        Zpa.adjustUrl url ::
          (List.range (resp0.totalPages + 1)).map (Zpa.pageUrl (Zpa.adjustUrl url))) := by
  have key := Zpa.loopGo_ok fetch (Zpa.adjustUrl url) resps pages
    (resp0.totalPages + 1) 0 [] [Zpa.adjustUrl url]
    (fun j _ hj2 => hres j (by omega))
    (fun j _ hj2 => hlist j (by omega))
  simp only [Zpa.obtain_all_results, h0, hl0]
  rw [if_pos htp, key, List.range_eq_range']
  simp

/-- Concrete loop pages for the ZPA examples: index 0 = [7], 1 = [8],
2 = [9]. -/
def exZpaPages : Nat → List Nat
  | 0 => [7]
  | 1 => [8]
  | 2 => [9]
  | _ => []

/-- Concrete loop responses for the ZPA examples. -/
def exZpaResps : Nat → Zpa.Response Nat :=
  fun j => ⟨some (exZpaPages j), 2⟩

/-- Concrete ZPA transport: `/seg?pagesize=500` reports totalPages = 2
with list [1]; page URLs 0..2 serve `exZpaPages`; anything else errors. -/
def exZpaFetch : Zpa.ZpaFetch String Nat := fun u =>
  if u = "/seg?pagesize=500" then .ok ⟨some [1], 2⟩
  else if u = "/seg?pagesize=500&page=0" then .ok (exZpaResps 0)
  else if u = "/seg?pagesize=500&page=1" then .ok (exZpaResps 1)
  else if u = "/seg?pagesize=500&page=2" then .ok (exZpaResps 2)
  else .error "unexpected url"

/-- Witness for C2: totalPages = 2 makes the paginator fetch the base URL
and then pages 0, 1, 2, returning [7, 8, 9]. -/
theorem zpa_total_pages_paginator_witness :
    Zpa.obtain_all_results exZpaFetch "/seg" =
      (.ok [7, 8, 9],
        ["/seg?pagesize=500", "/seg?pagesize=500&page=0",
         "/seg?pagesize=500&page=1", "/seg?pagesize=500&page=2"]) :=
  zpa_total_pages_paginator exZpaFetch "/seg" ⟨some [1], 2⟩ [1] exZpaResps
    exZpaPages rfl rfl (by decide)
    (by intro j hj; interval_cases j <;> rfl)
    (by intro j hj; interval_cases j <;> rfl)

/-- C3: a first response without a `"list"` key makes `_obtain_all_results`
return the empty sequence after exactly one fetch (the URL trace is the
single adjusted URL). -/
theorem zpa_no_list_key_yields_empty {ε : Type u} {α : Type v}
    (fetch : Zpa.ZpaFetch ε α) (url : String) (resp0 : Zpa.Response α)
    (h0 : fetch (Zpa.adjustUrl url) = .ok resp0)
    (hl : resp0.list = none) :
    Zpa.obtain_all_results fetch url = (.ok [], [Zpa.adjustUrl url]) := by
  simp only [Zpa.obtain_all_results, h0, hl]

/-- Transport whose every response lacks a `"list"` field. -/
def exNoListFetch : Zpa.ZpaFetch String Nat :=
  fun _ => .ok ⟨none, 5⟩

/-- Witness for C3: with no `"list"` key the result is `[]` after one
fetch. -/
theorem zpa_no_list_key_yields_empty_witness :
    Zpa.obtain_all_results exNoListFetch "/u" = (.ok [], ["/u?pagesize=500"]) :=
  zpa_no_list_key_yields_empty exNoListFetch "/u" ⟨none, 5⟩ rfl rfl

/-- C4: a first response with a `"list"` key reporting `totalPages = 1`
makes `_obtain_all_results` return exactly that response's `"list"` field
after exactly one fetch. -/
theorem zpa_single_page_returns_list {ε : Type u} {α : Type v}
    (fetch : Zpa.ZpaFetch ε α) (url : String) (resp0 : Zpa.Response α)
    (lst : List α)
    (h0 : fetch (Zpa.adjustUrl url) = .ok resp0)
    (hl : resp0.list = some lst)
    (htp : resp0.totalPages = 1) :
    Zpa.obtain_all_results fetch url = (.ok lst, [Zpa.adjustUrl url]) := by
  simp only [Zpa.obtain_all_results, h0, hl]
  rw [if_neg (by omega)]

/-- Transport answering a single page: list [4, 5], totalPages = 1. -/
def exOnePageFetch : Zpa.ZpaFetch String Nat :=
  fun _ => .ok ⟨some [4, 5], 1⟩

/-- Witness for C4: totalPages = 1 returns the single response's list
after one fetch. -/
theorem zpa_single_page_returns_list_witness :
    Zpa.obtain_all_results exOnePageFetch "/u" =
      (.ok [4, 5], ["/u?pagesize=500"]) :=
  zpa_single_page_returns_list exOnePageFetch "/u" ⟨some [4, 5], 1⟩ [4, 5]
    rfl rfl rfl

/-- The ZPA loop never changes the first entry of the URL trace. -/
theorem Zpa.loopGo_urls_head {ε : Type u} {α : Type v}
    (fetch : Zpa.ZpaFetch ε α) (url : String) :
    ∀ (count i : Nat) (acc : List α) (u : String) (us : List String),
      ((Zpa.loopGo fetch url count i acc (u :: us)).2).head? = some u := by
  intro count
  induction count with
  | zero => intro i acc u us; rfl
  | succ count ih =>
    intro i acc u us
    simp only [Zpa.loopGo]
    cases hf : fetch (Zpa.pageUrl url i) with
    | error e => simp
    | ok resp =>
      cases hl : resp.list with
      | none => simp [hl]
      | some lst =>
        simp only [hl, List.cons_append]
        exact ih (i + 1) (acc ++ lst) u (us ++ [Zpa.pageUrl url i])

/-- The first URL fetched by `_obtain_all_results` is always the adjusted
URL, whatever the transport answers. -/
theorem Zpa.first_fetch_url {ε : Type u} {α : Type v}
    (fetch : Zpa.ZpaFetch ε α) (url : String) :
    ((Zpa.obtain_all_results fetch url).2).head? = some (Zpa.adjustUrl url) := by
  simp only [Zpa.obtain_all_results]
  cases hf : fetch (Zpa.adjustUrl url) with
  | error e => rfl
  | ok resp =>
    cases hl : resp.list with
    | none => simp [hl]
    | some lst =>
      simp only [hl]
      by_cases htp : resp.totalPages > 1
      · rw [if_pos htp]
        exact Zpa.loopGo_urls_head fetch (Zpa.adjustUrl url)
          (resp.totalPages + 1) 0 [] (Zpa.adjustUrl url) []
      · rw [if_neg htp]
        rfl

/-- C8: `_obtain_all_results` appends the default `?pagesize=500` to the
URL it first fetches exactly when the substring `?pagesize` does not occur
in the given URL, and leaves the URL untouched otherwise (so a URL whose
query already holds `&pagesize=...` still gets a second page-size
parameter appended). -/
theorem zpa_pagesize_default_append {ε : Type u} {α : Type v}
    (fetch : Zpa.ZpaFetch ε α) (url : String) :
    (strIn "?pagesize" url = false →
      ((Zpa.obtain_all_results fetch url).2).head? =
        some (url ++ "?pagesize=500")) ∧
    (strIn "?pagesize" url = true →
      ((Zpa.obtain_all_results fetch url).2).head? = some url) := by
  constructor
  · intro h
    rw [Zpa.first_fetch_url]
    simp [Zpa.adjustUrl, h]
  · intro h
    rw [Zpa.first_fetch_url]
    simp [Zpa.adjustUrl, h]

/-- Witness for C8: a URL already carrying `&pagesize=100` (not as the
first query parameter) still gets `?pagesize=500` appended. -/
theorem zpa_pagesize_default_append_witness :
    ((Zpa.obtain_all_results exZpaFetch "/app/x?a=1&pagesize=100").2).head? =
      some "/app/x?a=1&pagesize=100?pagesize=500" :=
  (zpa_pagesize_default_append exZpaFetch "/app/x?a=1&pagesize=100").1
    (by decide)

/-- Python truthiness of an optional string (`None` and `""` are falsy):
models `if client_id and client_secret:` and `response.cookies.get(...)`
tests. -/
def pyTruthy : Option String → Bool
  | none => false
  | some s => !s.isEmpty

namespace ZiaPortal

/-- Per-instance attributes of `ZiaPortalTalker` (portal_talker.py:35-44). -/
structure State where
  cloud_name : String
  base_uri : String
  j_session_id : Option String
  zs_session_code : Option String
  headers : Option (List (String × String))
  version : String

/-- The two distinguishable authentication failure kinds raised by
`ZiaPortalTalker.authenticate` (portal_talker.py:82, 90). -/
inductive AuthErr where
  | invalidCredentials
  | invalidApiKey
deriving DecidableEq

/-- Cookies of the `/authenticatedSession` response: value of `JSESSIONID`
and of `ZS_SESSION_CODE`, `none` when the cookie is absent. -/
structure AuthResponse where
  jsessionid : Option String
  zs_session_code : Option String

/-- `ZiaPortalTalker.authenticate` (portal_talker.py:51-90): on a truthy
`JSESSIONID` cookie store it; otherwise raise "Invalid Credentials".
Then on a truthy `ZS_SESSION_CODE` cookie store it and derive the
headers; otherwise raise "Invalid API key" (with `j_session_id` already
mutated, as in the source).  The returned pair is the resulting attribute
state and the raised error, if any. -/
def authenticate (s : State) (resp : AuthResponse) : State × Option AuthErr :=
  if pyTruthy resp.jsessionid then
    let s1 := { s with j_session_id := resp.jsessionid }
    if pyTruthy resp.zs_session_code then
      ({ s1 with
          zs_session_code := resp.zs_session_code,
          headers := some [("Content-Type", "application/json"),
                           ("ZS_CUSTOM_CODE", resp.zs_session_code.getD "")] },
        none)
    else
      (s1, some .invalidApiKey)
  else
    (s, some .invalidCredentials)

end ZiaPortal

/-- C5: portal authentication raises "invalid credentials" when the
`JSESSIONID` cookie is absent (state untouched), raises "invalid API key"
when `JSESSIONID` is present but `ZS_SESSION_CODE` is absent (leaving
`zs_session_code` and the derived headers unpopulated), and the two error
kinds are distinct. -/
theorem portal_auth_failure_modes (s : ZiaPortal.State)
    (resp : ZiaPortal.AuthResponse) :
    (resp.jsessionid = none →
      ZiaPortal.authenticate s resp = (s, some .invalidCredentials)) ∧
    (pyTruthy resp.jsessionid = true →
      pyTruthy resp.zs_session_code = false →
      (ZiaPortal.authenticate s resp).2 = some .invalidApiKey ∧
      (ZiaPortal.authenticate s resp).1.zs_session_code = s.zs_session_code ∧
      (ZiaPortal.authenticate s resp).1.headers = s.headers) ∧
    ZiaPortal.AuthErr.invalidCredentials ≠ ZiaPortal.AuthErr.invalidApiKey := by
  refine ⟨fun h => ?_, fun h1 h2 => ?_, by decide⟩
  · simp [ZiaPortal.authenticate, h, pyTruthy]
  · simp [ZiaPortal.authenticate, h1, h2]

/-- A freshly constructed, unauthenticated portal state. -/
def exPortalState : ZiaPortal.State :=
  { cloud_name := "zscaler.net",
    base_uri := "https://admin.zscaler.net/zsapi/v1",
    j_session_id := none, zs_session_code := none,
    headers := none, version := "0.1" }

/-- Witness for C5: a response with no cookies raises "invalid
credentials"; one with only `JSESSIONID` raises "invalid API key" without
populating `zs_session_code` or the headers. -/
theorem portal_auth_failure_modes_witness :
    ZiaPortal.authenticate exPortalState ⟨none, none⟩ =
      (exPortalState, some .invalidCredentials) ∧
    (ZiaPortal.authenticate exPortalState ⟨some "sess", none⟩).2 =
      some .invalidApiKey ∧
    (ZiaPortal.authenticate exPortalState ⟨some "sess", none⟩).1.zs_session_code =
      none ∧
    (ZiaPortal.authenticate exPortalState ⟨some "sess", none⟩).1.headers =
      none := by
  have A := portal_auth_failure_modes exPortalState (⟨none, none⟩ : ZiaPortal.AuthResponse)
  have B := portal_auth_failure_modes exPortalState
    (⟨some "sess", none⟩ : ZiaPortal.AuthResponse)
  exact ⟨A.1 rfl, (B.2.1 rfl rfl).1, (B.2.1 rfl rfl).2.1, (B.2.1 rfl rfl).2.2⟩

namespace ClientConnector

/-- Per-instance attributes of `ClientConnectorTalker` (talker.py:29-36). -/
structure State where
  base_uri : String
  jsession_id : Option String
  version : String
  header : List (String × String)

/-- JSON body of the `/auth/v1/login` response. -/
structure AuthResponse where
  jwtToken : String

/-- `ClientConnectorTalker.authenticate` (talker.py:43-64): replace the
held header with `{"auth-token": response.json()["jwtToken"]}`. -/
def authenticate (s : State) (resp : AuthResponse) : State :=
  { s with header := [("auth-token", resp.jwtToken)] }

/-- `ClientConnectorTalker.__init__` (talker.py:18-41): set the base URI
and unauthenticated attribute defaults, then authenticate only when both
credentials are truthy.  The boolean records whether an authentication
request was performed. -/
def init (cloud client_id secret_key : String) (resp : AuthResponse) :
    State × Bool :=
  let s : State :=
    { base_uri := "https://api-mobile." ++ cloud ++ "/papi",
      jsession_id := none, version := "beta 0.1", header := [] }
  if client_id ≠ "" ∧ secret_key ≠ "" then
    (authenticate s resp, true)
  else
    (s, false)

end ClientConnector

namespace Zpa

/-- Per-instance attributes of `ZpaTalker` (zpa_talker.py:26-35). -/
structure State where
  base_uri : String
  jsessionid : Option String
  version : String
  header : Option (List (String × String))
  customerId : Int

/-- JSON body of the `/signin` response. -/
structure AuthResponse where
  token_type : String
  access_token : String

/-- `ZpaTalker.authenticate` (zpa_talker.py:80-109): replace the held
header with `{"Authorization": f"{token_type} {access_token}"}` derived
from the latest response. -/
def authenticate (s : State) (resp : AuthResponse) : State :=
  { s with
      header := some [("Authorization",
        resp.token_type ++ " " ++ resp.access_token)] }

/-- `ZpaTalker.__init__` (zpa_talker.py:13-40): set the base URI and
unauthenticated attribute defaults, then authenticate only when both
credentials are truthy (`client_id` defaults to `None`).  The boolean
records whether an authentication request was performed. -/
def init (customerID : Int) (cloud : String) (client_id : Option String)
    (client_secret : String) (resp : AuthResponse) : State × Bool :=
  let s : State :=
    { base_uri := cloud, jsessionid := none, version := "1.3",
      header := none, customerId := customerID }
  if pyTruthy client_id = true ∧ client_secret ≠ "" then
    (authenticate s resp, true)
  else
    (s, false)

end Zpa

/-- `ZiaPortalTalker.__init__` (portal_talker.py:18-49): set the base URI
and unauthenticated attribute defaults, then authenticate only when both
credentials are truthy.  The boolean records whether an authentication
request was performed. -/
def ZiaPortal.init (cloud_name username password : String)
    (resp : ZiaPortal.AuthResponse) :
    (ZiaPortal.State × Option ZiaPortal.AuthErr) × Bool :=
  let s : ZiaPortal.State :=
    { cloud_name := cloud_name,
      base_uri := "https://admin." ++ cloud_name ++ "/zsapi/v1",
      j_session_id := none, zs_session_code := none,
      headers := none, version := "0.1" }
  if username ≠ "" ∧ password ≠ "" then
    (ZiaPortal.authenticate s resp, true)
  else
    ((s, none), false)

/-- C7: after a second (re-)authentication the attached auth state equals
the attachment freshly derived from the latest response — the ZPA header
is exactly `Authorization: "<token_type> <access_token>"` of the second
response and the ClientConnector header exactly `auth-token: <jwtToken>`
of the second response, with no dependence on the first response's
token. -/
theorem reauth_replaces_attachment :
    (∀ (s : Zpa.State) (r1 r2 : Zpa.AuthResponse),
      (Zpa.authenticate (Zpa.authenticate s r1) r2).header =
        some [("Authorization", r2.token_type ++ " " ++ r2.access_token)]) ∧
    (∀ (s : ClientConnector.State)
        (r1 r2 : ClientConnector.AuthResponse),
      (ClientConnector.authenticate (ClientConnector.authenticate s r1) r2).header =
        [("auth-token", r2.jwtToken)]) :=
  ⟨fun _ _ _ => rfl, fun _ _ _ => rfl⟩

/-- C10: each talker constructor performs no authentication request when
either credential is empty (or `None`), leaving the auth-attachment
fields at their unauthenticated initial values (`{}`/`None` headers,
`None` session cookies); authentication runs during construction only
when both credentials are non-empty. -/
theorem constructors_auth_only_with_credentials :
    (∀ (cloud cid sk : String) (r : ClientConnector.AuthResponse),
      ((cid = "" ∨ sk = "") →
        (ClientConnector.init cloud cid sk r).2 = false ∧
        (ClientConnector.init cloud cid sk r).1.header = [] ∧
        (ClientConnector.init cloud cid sk r).1.jsession_id = none) ∧
      ((ClientConnector.init cloud cid sk r).2 = true → cid ≠ "" ∧ sk ≠ "")) ∧
    (∀ (cust : Int) (cloud : String) (cid : Option String) (cs : String)
        (r : Zpa.AuthResponse),
      ((pyTruthy cid = false ∨ cs = "") →
        (Zpa.init cust cloud cid cs r).2 = false ∧
        (Zpa.init cust cloud cid cs r).1.header = none ∧
        (Zpa.init cust cloud cid cs r).1.jsessionid = none) ∧
      ((Zpa.init cust cloud cid cs r).2 = true →
        pyTruthy cid = true ∧ cs ≠ "")) ∧
    (∀ (cn un pw : String) (r : ZiaPortal.AuthResponse),
      ((un = "" ∨ pw = "") →
        (ZiaPortal.init cn un pw r).2 = false ∧
        (ZiaPortal.init cn un pw r).1.1.j_session_id = none ∧
        (ZiaPortal.init cn un pw r).1.1.zs_session_code = none ∧
        (ZiaPortal.init cn un pw r).1.1.headers = none) ∧
      ((ZiaPortal.init cn un pw r).2 = true → un ≠ "" ∧ pw ≠ "")) := by
  refine ⟨fun cloud cid sk r => ⟨fun h => ?_, fun h => ?_⟩,
          fun cust cloud cid cs r => ⟨fun h => ?_, fun h => ?_⟩,
          fun cn un pw r => ⟨fun h => ?_, fun h => ?_⟩⟩
  · have hcond : ¬(cid ≠ "" ∧ sk ≠ "") := by tauto
    simp [ClientConnector.init, hcond]
  · by_cases hc : cid ≠ "" ∧ sk ≠ ""
    · exact hc
    · simp [ClientConnector.init, hc] at h
  · have hcond : ¬(pyTruthy cid = true ∧ cs ≠ "") := by
      rcases h with h | h
      · simp [h]
      · tauto
    simp [Zpa.init, hcond]
  · by_cases hc : pyTruthy cid = true ∧ cs ≠ ""
    · exact hc
    · simp [Zpa.init, hc] at h
  · have hcond : ¬(un ≠ "" ∧ pw ≠ "") := by tauto
    simp [ZiaPortal.init, hcond]
  · by_cases hc : un ≠ "" ∧ pw ≠ ""
    · exact hc
    · simp [ZiaPortal.init, hc] at h

/-- Witness for C10: constructing with an empty client id (ClientConnector),
a `None` client id (ZPA), or an empty password (portal) performs no
authentication and leaves the attachment fields unauthenticated. -/
theorem constructors_auth_only_with_credentials_witness :
    (ClientConnector.init "c" "" "x" ⟨"tok"⟩).2 = false ∧
    (ClientConnector.init "c" "" "x" ⟨"tok"⟩).1.header = [] ∧
    (Zpa.init 7 "https://cfg" none "sec" ⟨"Bearer", "T"⟩).2 = false ∧
    (Zpa.init 7 "https://cfg" none "sec" ⟨"Bearer", "T"⟩).1.header = none ∧
    (ZiaPortal.init "z.net" "u" "" ⟨none, none⟩).2 = false ∧
    (ZiaPortal.init "z.net" "u" "" ⟨none, none⟩).1.1.headers = none := by
  have A := constructors_auth_only_with_credentials
  exact ⟨((A.1 "c" "" "x" ⟨"tok"⟩).1 (Or.inl rfl)).1,
         ((A.1 "c" "" "x" ⟨"tok"⟩).1 (Or.inl rfl)).2.1,
         ((A.2.1 7 "https://cfg" none "sec" ⟨"Bearer", "T"⟩).1 (Or.inl rfl)).1,
         ((A.2.1 7 "https://cfg" none "sec" ⟨"Bearer", "T"⟩).1 (Or.inl rfl)).2.1,
         ((A.2.2 "z.net" "u" "" ⟨none, none⟩).1 (Or.inr rfl)).1,
         ((A.2.2 "z.net" "u" "" ⟨none, none⟩).1 (Or.inr rfl)).2.2.2⟩

namespace Zpa

/-- One application segment as consumed by `list_sra_consoles`: its
`sraApps` entry, `none` when the key is absent or its value is null
(`dict.get` returns `None` in both cases). -/
structure AppSegment (α : Type v) where
  sraApps : Option (List α)

/-- `ZpaTalker.list_sra_consoles` (zpa_talker.py:818-831): iterate the
application segments, extending the accumulator with each segment's
`sraApps` list when it is not `None`. -/
def list_sra_consoles {α : Type v} (appsegments : List (AppSegment α)) :
    List α :=
  appsegments.foldl
    (fun sralist apps =>
      match apps.sraApps with
      | some srap => sralist ++ srap
      | none => sralist)
    []

end Zpa

/-- The `list_sra_consoles` fold, started from any accumulator, appends
the concatenation of the present `sraApps` lists. -/
theorem Zpa.list_sra_consoles_fold {α : Type v} :
    ∀ (segs : List (Zpa.AppSegment α)) (acc : List α),
      segs.foldl
        (fun sralist apps =>
          match apps.sraApps with
          | some srap => sralist ++ srap
          | none => sralist)
        acc =
        acc ++ segs.flatMap (fun a => a.sraApps.getD []) := by
  intro segs
  induction segs with
  | nil => intro acc; simp
  | cons s segs ih =>
    intro acc
    cases hs : s.sraApps with
    | none => simp [List.foldl_cons, hs, ih]
    | some srap => simp [List.foldl_cons, hs, ih]

/-- C9: `list_sra_consoles` returns the concatenation, in segment order,
of the `sraApps` list of each application segment, with segments whose
`sraApps` is absent or null skipped (contributing nothing, raising no
error). -/
theorem sra_consoles_concat {α : Type v} (segs : List (Zpa.AppSegment α)) :
    Zpa.list_sra_consoles segs =
      segs.flatMap (fun a => a.sraApps.getD []) := by
  rw [Zpa.list_sra_consoles, Zpa.list_sra_consoles_fold]
  simp

/-- If pages `page .. page+d-1` fetch ok and non-empty but the fetch of
page `page+d` raises, the sentinel loop surfaces exactly that error after
`d+1` further fetches, discarding the accumulator. -/
theorem ClientConnector.obtainAllGo_error {ε : Type u} {α : Type v}
    (fetch : SentinelFetch ε α) (pages : Nat → List α) (e : ε) :
    ∀ (d fuel page : Nat) (acc : List α) (n : Nat),
      (∀ k, page ≤ k → k < page + d →
        fetch k = .ok (pages k) ∧ pages k ≠ []) →
      fetch (page + d) = .error e →
      d + 1 ≤ fuel →
      obtainAllGo fetch fuel page acc n = some (.error e, n + d + 1) := by
  intro d
  induction d with
  | zero =>
    intro fuel page acc n _ herr hfuel
    match fuel, hfuel with
    | fuel + 1, _ =>
      have h1 : fetch page = .error e := by simpa using herr
      simp [obtainAllGo, h1]
  | succ d ih =>
    intro fuel page acc n hok herr hfuel
    match fuel, hfuel with
    | fuel + 1, hfuel =>
      have h1 := hok page (Nat.le_refl _) (by omega)
      have hrec := ih fuel (page + 1) (acc ++ pages page) (n + 1)
        (fun k hk1 hk2 => hok k (Nat.le_of_succ_le hk1) (by omega))
        (by have : page + 1 + d = page + (d + 1) := by omega
            rw [this]; exact herr)
        (Nat.le_of_succ_le_succ hfuel)
      simp only [obtainAllGo, h1.1]
      rw [if_neg (by simpa [List.isEmpty_iff] using h1.2)]
      rw [hrec]
      congr 2
      omega

/-- If loop indices `i .. j-1` fetch ok with a `"list"` field but the
fetch at index `j` raises, the ZPA loop surfaces exactly that transport
error, discarding the accumulator. -/
theorem Zpa.loopGo_error {ε : Type u} {α : Type v} (fetch : Zpa.ZpaFetch ε α)
    (url : String) (resps : Nat → Zpa.Response α) (pages : Nat → List α)
    (e : ε) (j : Nat) :
    ∀ (count i : Nat) (acc : List α) (urls : List String),
      i ≤ j → j < i + count →
      (∀ m, i ≤ m → m < j →
        fetch (Zpa.pageUrl url m) = .ok (resps m) ∧
        (resps m).list = some (pages m)) →
      fetch (Zpa.pageUrl url j) = .error e →
      (Zpa.loopGo fetch url count i acc urls).1 = .error (.transport e) := by
  intro count
  induction count with
  | zero => intro i acc urls hij hlt _ _; omega
  | succ count ih =>
    intro i acc urls hij hlt hok herr
    by_cases hie : i = j
    · subst hie
      simp [Zpa.loopGo, herr]
    · have h1 := hok i (Nat.le_refl _) (by omega)
      simp only [Zpa.loopGo, h1.1, h1.2]
      exact ih (i + 1) (acc ++ pages i) (urls ++ [Zpa.pageUrl url i])
        (by omega) (by omega)
        (fun m hm1 hm2 => hok m (Nat.le_of_succ_le hm1) hm2)
        herr

/-- C6: a transport error raised on fetch `k` (`k > 1`) of either
pagination dialect aborts the whole call with that error surfaced
unchanged — the caller sees the error, not any partial result sequence
accumulated from the earlier successful fetches.  For the sentinel
dialect the failing fetch is page `k`; for the total-pages dialect it is
loop index `j` (the `j+2`-nd fetch overall). -/
theorem pagination_abort_no_partial :
    (∀ (ε : Type u) (α : Type v) (fetch : SentinelFetch ε α)
        (pages : Nat → List α) (e : ε) (k fuel : Nat),
      2 ≤ k →
      (∀ i, 1 ≤ i → i < k → fetch i = .ok (pages i) ∧ pages i ≠ []) →
      fetch k = .error e →
      k ≤ fuel →
      ClientConnector.obtain_all fetch fuel = some (.error e, k)) ∧
    (∀ (ε : Type u) (α : Type v) (fetch : Zpa.ZpaFetch ε α) (url : String)
        (resp0 : Zpa.Response α) (l0 : List α)
        (resps : Nat → Zpa.Response α) (pages : Nat → List α) (e : ε)
        (j : Nat),
      fetch (Zpa.adjustUrl url) = .ok resp0 →
      resp0.list = some l0 →
      1 < resp0.totalPages →
      j ≤ resp0.totalPages →
      (∀ m, m < j →
        fetch (Zpa.pageUrl (Zpa.adjustUrl url) m) = .ok (resps m) ∧
        (resps m).list = some (pages m)) →
      fetch (Zpa.pageUrl (Zpa.adjustUrl url) j) = .error e →
      (Zpa.obtain_all_results fetch url).1 = .error (.transport e)) := by
  constructor
  · intro ε α fetch pages e k fuel hk hok herr hfuel
    have key := ClientConnector.obtainAllGo_error fetch pages e (k - 1) fuel 1 [] 0
      (fun i hi1 hi2 => hok i hi1 (by omega))
      (by have : 1 + (k - 1) = k := by omega
          rw [this]; exact herr)
      (by omega)
    rw [ClientConnector.obtain_all, key]
    congr 2
    omega
  · intro ε α fetch url resp0 l0 resps pages e j h0 hl0 htp hj hok herr
    simp only [Zpa.obtain_all_results, h0, hl0]
    rw [if_pos htp]
    exact Zpa.loopGo_error fetch (Zpa.adjustUrl url) resps pages e j
      (resp0.totalPages + 1) 0 [] [Zpa.adjustUrl url]
      (by omega) (by omega)
      (fun m _ hm2 => hok m hm2)
      herr

/-- Sentinel transport failing on the second fetch. -/
def exErrFetch : SentinelFetch String Nat :=
  fun k => if k = 1 then .ok [1] else .error "boom"

/-- ZPA transport failing on loop index 1 (the third fetch overall). -/
def exZpaErrFetch : Zpa.ZpaFetch String Nat := fun u =>
  if u = "/s?pagesize=500" then .ok ⟨some [1], 2⟩
  else if u = "/s?pagesize=500&page=0" then .ok ⟨some [2], 2⟩
  else .error "boom"

/-- Witness for C6: both dialects abort with the injected error and no
partial result. -/
theorem pagination_abort_no_partial_witness :
    ClientConnector.obtain_all exErrFetch 5 = some (.error "boom", 2) ∧
    (Zpa.obtain_all_results exZpaErrFetch "/s").1 =
      .error (.transport "boom") := by
  have A := pagination_abort_no_partial
  refine ⟨A.1 String Nat exErrFetch (fun _ => [1]) "boom" 2 5 (by decide)
    ?_ rfl (by decide), ?_⟩
  · intro i hi1 hi2
    have : i = 1 := by omega
    subst this
    exact ⟨rfl, by decide⟩
  · exact A.2 String Nat exZpaErrFetch "/s" ⟨some [1], 2⟩ [1]
      (fun _ => ⟨some [2], 2⟩) (fun _ => [2]) "boom" 1
      rfl rfl (by decide) (by decide)
      (by intro m hm
          have : m = 0 := by omega
          subst this
          exact ⟨rfl, rfl⟩)
      rfl
